import Mathlib

/-!
# Marketplace purchase workflow

A shallow embedding of `src/main.cpp`: the purchase workflow `processPurchase`
and the scripted run of `main`.

Conventions of the embedding.

* A C++ `double` is the rational number it holds; infinities and NaN are not
  modelled. An arithmetic operation on doubles is the exact operation followed
  by a rounding `fl`, and a comparison of doubles is the comparison of their
  values. The rounding is a parameter of the embedding (`Env.fl`), so that the
  general theorems hold for every rounding; `roundDouble` is the rounding of
  binary64 (to nearest, ties to even), used for the scripted run and for the
  concrete evaluations.
* A C++ `int` (item id, quantity) is a mathematical integer; signed overflow
  (undefined behaviour in C++) is not modelled.
* The bank owns the accounts, a `BankCustomer *` is a position in the bank's
  sequence of accounts, and dereferencing a position outside that sequence has
  no result (`none`).
* Objects that the workflow mutates through references (the accounts held by the
  bank, the seller's inventory) are passed in and returned explicitly.
* Console output is kept as the kind of message and the numbers it prints.

The classes `Bank`, `BankCustomer`, `Seller`, `Buyer` and `Item` are declared in
headers that are not part of `src/`; their operations are modelled from the
specification and marked as such. The specification requires the amount of a
deposit to be non-negative and does not say what a deposit of a negative amount
does; that behaviour is a parameter of the embedding (`Env.depositNegative`).
-/

namespace Marketplace

/-- Two to an integer power. -/
def pow2 (k : Int) : ℚ :=
  if 0 ≤ k then ((2 ^ k.toNat : Nat) : ℚ) else 1 / ((2 ^ (-k).toNat : Nat) : ℚ)

/-- The position of the leading binary digit of `n` (the floor of its binary
logarithm, 0 for `n < 2`), by halving; `fuel` bounds the number of halvings. -/
def log2Fuel : Nat → Nat → Nat
  | 0, _ => 0
  | fuel + 1, n => if n < 2 then 0 else log2Fuel fuel (n / 2) + 1

/-- The floor of the binary logarithm of `n` (0 for `n < 2`). -/
def log2 (n : Nat) : Nat := log2Fuel n n

/-- The significand of a binary64 rounding: the integer nearest to `m`, the even
one of the two when `m` is half-way between them. -/
def nearestEven (m : ℚ) : Int :=
  let f : Int := ⌊m⌋
  let r : ℚ := m - (f : ℚ)
  if r < 1 / 2 then f
  else if 1 / 2 < r then f + 1
  else if f % 2 = 0 then f else f + 1

/-- Rounding of an exact result to a `double` (IEEE 754 binary64, round to
nearest, ties to even): 53 significant bits, exponent bounded below by -1022
(subnormal numbers). A result beyond the largest finite double, which the
hardware turns into an infinity, is not modelled. -/
def roundDouble (x : ℚ) : ℚ :=
  if x = 0 then 0
  else
    let a : ℚ := |x|
    let e0 : Int := (log2 a.num.natAbs : Int) - (log2 a.den : Int)
    let e1 : Int := if a < pow2 e0 then e0 - 1 else e0
    let e : Int := max e1 (-1022)
    let ulp : ℚ := pow2 (e - 52)
    (if x < 0 then -1 else 1) * ((nearestEven (a / ulp) : Int) : ℚ) * ulp

/-- Modelled from the spec: the class `Item` of `item.h` (absent), a plain data
holder: id, name, unit price, quantity on hand. -/
structure Item where
  id : Int
  name : String
  price : ℚ
  quantity : Int
deriving DecidableEq

/-- Modelled from the spec: `Item::reduceQuantity(n)` of `item.h` (absent); it
fails if `n` is greater than the current quantity and otherwise decrements. -/
def Item.reduceQuantity (it : Item) (n : Int) : Bool × Item :=
  if n > it.quantity then (false, it)
  else (true, { it with quantity := it.quantity - n })

/-- Modelled from the spec: the class `BankCustomer` of `bank_customer.h`
(absent), the account: id, name, balance. -/
structure BankCustomer where
  id : Int
  name : String
  balance : ℚ
deriving DecidableEq

/-- What the embedding is parametric in: the rounding of `double` arithmetic,
and the part of the absent `BankCustomer::deposit` that the specification leaves
open. -/
structure Env where
  /-- The rounding of an exact result to a `double`. -/
  fl : ℚ → ℚ
  /-- The account after `deposit(amount)` with a negative `amount`, a call the
  specification excludes ("amount must be non-negative") without giving its
  effect. -/
  depositNegative : BankCustomer → ℚ → BankCustomer

/-- The binary64 arithmetic, with a deposit that ignores a negative amount. The
scripted run deposits positive amounts only, so it does not reach that part. -/
def ieee : Env := ⟨roundDouble, fun c _ => c⟩

/-- Modelled from the spec: `BankCustomer::deposit(amount)` of `bank_customer.h`
(absent): `balance += amount`; amount must be non-negative. For a negative
amount the spec gives no effect and the result is `env.depositNegative`. -/
def BankCustomer.deposit (env : Env) (c : BankCustomer) (amount : ℚ) : BankCustomer :=
  if 0 ≤ amount then { c with balance := env.fl (c.balance + amount) }
  else env.depositNegative c amount

/-- Modelled from the spec: `BankCustomer::withdraw(amount)` of
`bank_customer.h` (absent): if `amount > balance` it fails and the balance is
unchanged, otherwise `balance -= amount`. The flag is the success result. -/
def BankCustomer.withdraw (env : Env) (c : BankCustomer) (amount : ℚ) : Bool × BankCustomer :=
  if amount > c.balance then (false, c)
  else (true, { c with balance := env.fl (c.balance - amount) })

/-- Modelled from the spec: the class `Bank` of `bank.h` (absent); it owns the
sequence of accounts. -/
structure Bank where
  name : String
  customers : List BankCustomer
deriving DecidableEq

/-- Modelled from the spec: `Bank::findCustomer(id)` of `bank.h` (absent):
the handle of the account with that id, or the absent indicator. -/
def Bank.findCustomer (b : Bank) (id : Int) : Option Nat :=
  b.customers.findIdx? (fun c => c.id == id)

/-- Modelled from the spec: `Bank::addCustomer(account)` of `bank.h` (absent):
appends a new account and fails (no change) if the id is already present. -/
def Bank.addCustomer (b : Bank) (c : BankCustomer) : Bank :=
  match b.findCustomer c.id with
  | some _ => b
  | none => { b with customers := b.customers ++ [c] }

/-- Dereference an account pointer (`p->...`). -/
def Bank.deref (b : Bank) (p : Nat) : Option BankCustomer :=
  b.customers[p]?

/-- Write an account back through its pointer. -/
def Bank.store (b : Bank) (p : Nat) (c : BankCustomer) : Bank :=
  { b with customers := b.customers.set p c }

/-- Modelled from the spec: the class `Seller` of `seller.h` (absent): identity,
a reference to its account and the inventory it owns. -/
structure Seller where
  id : Int
  name : String
  account : Nat
  items : List Item
deriving DecidableEq

/-- Modelled from the spec: the class `Buyer` of `buyer.h` (absent): identity
and a reference to its account. -/
structure Buyer where
  id : Int
  name : String
  account : Nat
deriving DecidableEq

/-- Linear search for the first item with the given id; the result is the
position of the item in the inventory. -/
def findItemIdx : List Item → Int → Option Nat
  | [], _ => none
  | it :: rest, id =>
    if it.id = id then some 0 else (findItemIdx rest id).map (· + 1)

/-- Modelled from the spec: `Seller::findItem(id)` of `seller.h` (absent):
linear search; returns a handle to the item or the absent indicator. -/
def Seller.findItem (s : Seller) (id : Int) : Option Nat :=
  findItemIdx s.items id

/-- Modelled from the spec: `Seller::addItem(item)` of `seller.h` (absent):
appends to the inventory; rejects a duplicate id. -/
def Seller.addItem (s : Seller) (it : Item) : Seller :=
  match s.findItem it.id with
  | some _ => s
  | none => { s with items := s.items ++ [it] }

/-- The `double` product `price * quantity` of an item's price and an `int`
quantity (src/main.cpp, line 42; the same product in `sellItem`). The
conversion of the `int` to `double` is exact. -/
def totalPriceOf (env : Env) (it : Item) (quantity : Int) : ℚ :=
  env.fl (it.price * (quantity : ℚ))

/-- The result of `Seller::sellItem`: the success flag, the value of the
reference parameter `outSalePrice` afterwards, and the objects it mutates. -/
structure SellResult where
  ok : Bool
  outSalePrice : ℚ
  bank : Bank
  seller : Seller
deriving DecidableEq

/-- Modelled from the spec: `Seller::sellItem(id, quantity, outSalePrice)` of
`seller.h` (absent): looks up the item, fails if it is absent or the quantity is
insufficient; on success decrements the item quantity, computes
`price*quantity`, deposits that amount into the seller's account and writes the
amount to `outSalePrice`. -/
def Seller.sellItem (env : Env) (s : Seller) (bank : Bank) (id quantity : Int)
    (outSalePrice : ℚ) : Option SellResult :=
  match s.findItem id with
  | none => some ⟨false, outSalePrice, bank, s⟩
  | some p => do
    let it ← s.items[p]?
    let (ok, it') := it.reduceQuantity quantity
    if !ok then
      some ⟨false, outSalePrice, bank, s⟩
    else
      let amount := totalPriceOf env it quantity
      let acct ← bank.deref s.account
      some ⟨true, amount, bank.store s.account (acct.deposit env amount),
        { s with items := s.items.set p it' }⟩

/-- The verdict that `processPurchase` prints, with the numbers of the message. -/
inductive Report where
  /-- Prints "Transaction Failed: Item with ID ... not found in store ...". -/
  | itemNotFound (itemId : Int)
  /-- Prints "Transaction Failed: Insufficient stock. Current stock: ..., requested: ...". -/
  | insufficientStock (stock requested : Int)
  /-- Prints "Transaction Failed: ... has insufficient balance. Required: ..., Balance: ...". -/
  | insufficientBalance (required balance : ℚ)
  /-- Prints "--- TRANSACTION SUCCESSFUL ---" and "... successfully bought ... for ...". -/
  | success (quantity : Int) (totalPrice : ℚ)
deriving DecidableEq

/-- A mutating call issued by `processPurchase`, with its arguments and what it
returned (which `processPurchase` discards). -/
inductive Call where
  /-- The call `buyer.getAccount()->withdraw(amount)` and its success flag. -/
  | withdraw (account : Nat) (amount : ℚ) (ok : Bool)
  /-- The call `seller.sellItem(itemId, quantity, salePrice)`, its success flag and the
  value of `salePrice` afterwards. -/
  | sellItem (itemId quantity : Int) (ok : Bool) (salePrice : ℚ)
deriving DecidableEq

/-- What a call of `processPurchase` leaves behind: the printed verdict, the
mutating calls it issued in order, and the objects it may have mutated. -/
structure Outcome where
  report : Report
  calls : List Call
  bank : Bank
  seller : Seller
deriving DecidableEq

/-- Embedding of `processPurchase` (src/main.cpp, lines 20-68). -/
def processPurchase (env : Env) (bank : Bank) (buyer : Buyer) (seller : Seller)
    (itemId quantity : Int) : Option Outcome :=
  match seller.findItem itemId with
  -- 1. Validate if item exists
  | none => some ⟨.itemNotFound itemId, [], bank, seller⟩
  | some p => do
    let itemToBuy ← seller.items[p]?
    -- 2. Validate stock
    if itemToBuy.quantity < quantity then
      some ⟨.insufficientStock itemToBuy.quantity quantity, [], bank, seller⟩
    else
      let totalPrice : ℚ := totalPriceOf env itemToBuy quantity
      -- 3. Validate buyer balance
      let buyerAccount ← bank.deref buyer.account
      if buyerAccount.balance < totalPrice then
        some ⟨.insufficientBalance totalPrice buyerAccount.balance, [], bank, seller⟩
      else
        -- 4. Process transaction: deduct buyer balance, then the sale on the seller side
        let (wOk, buyerAccount') := buyerAccount.withdraw env totalPrice
        let bank1 := bank.store buyer.account buyerAccount'
        let sold ← seller.sellItem env bank1 itemId quantity 0
        some ⟨.success quantity totalPrice,
          [.withdraw buyer.account totalPrice wOk,
           .sellItem itemId quantity sold.ok sold.outSalePrice],
          sold.bank, sold.seller⟩

/-- The objects of `main` after initialisation (src/main.cpp, lines 72-103):
the bank with its three accounts, the seller with its three items, and the two
buyers; `none` is the early `return 1`. -/
def mainInit : Option (Bank × Seller × Buyer × Buyer) :=
  let aBank : Bank := ⟨"Digital Prosperity Bank", []⟩
  let aBank := aBank.addCustomer ⟨101, "John Doe", 1500⟩
  let aBank := aBank.addCustomer ⟨201, "Jane Smith", 800⟩
  let aBank := aBank.addCustomer ⟨202, "Michael Johnson", 200⟩
  match aBank.findCustomer 101, aBank.findCustomer 201, aBank.findCustomer 202 with
  | some sellerAccount, some buyerAccount1, some buyerAccount2 =>
    let seller : Seller := ⟨1, "John\x27s General Store", sellerAccount, []⟩
    let buyer1 : Buyer := ⟨1, "Jane", buyerAccount1⟩
    let buyer2 : Buyer := ⟨2, "Michael", buyerAccount2⟩
    let seller := seller.addItem ⟨1001, "Notebook", 5 / 2, 50⟩
    let seller := seller.addItem ⟨1002, "Pencil 2B", 1 / 2, 100⟩
    let seller := seller.addItem ⟨1003, "Eraser", 1, 75⟩
    some (aBank, seller, buyer1, buyer2)
  | _, _, _ => none

/-- The objects of `main` after initialisation and the outcomes of its four
purchases, in order. -/
structure MainRun where
  aBank : Bank
  seller : Seller
  buyer1 : Buyer
  buyer2 : Buyer
  first : Outcome
  second : Outcome
  third : Outcome
  fourth : Outcome
deriving DecidableEq

/-- Embedding of `main` up to its last purchase (src/main.cpp, lines 72-117):
initialisation, then the four calls of `processPurchase`, each run on the
objects the previous one left, in binary64 arithmetic. -/
def main : Option MainRun := do
  let (aBank, seller, buyer1, buyer2) ← mainInit
  let r1 ← processPurchase ieee aBank buyer1 seller 1001 10
  let r2 ← processPurchase ieee r1.bank buyer1 r1.seller 1002 5
  let r3 ← processPurchase ieee r2.bank buyer2 r2.seller 1003 80
  let r4 ← processPurchase ieee r3.bank buyer2 r3.seller 1003 20
  some ⟨aBank, seller, buyer1, buyer2, r1, r2, r3, r4⟩

/-- The balance of the account with the given id: `findCustomer(id)->getBalance()`. -/
def Bank.balanceOf (b : Bank) (id : Int) : Option ℚ :=
  ((b.findCustomer id).bind b.deref).map (·.balance)

/-- The item with the given id as the seller holds it: `*findItem(id)`. -/
def Seller.itemOf (s : Seller) (id : Int) : Option Item :=
  (s.findItem id).bind (fun p => s.items[p]?)

/-! ## Rounding -/

theorem findItemIdx_get {items : List Item} {id : Int} {p : Nat}
    (h : findItemIdx items id = some p) : ∃ it, items[p]? = some it ∧ it.id = id := by
  induction items generalizing p with
  | nil => simp [findItemIdx] at h
  | cons x rest ih =>
    unfold findItemIdx at h
    split at h
    · next hx =>
      cases h
      exact ⟨x, by simp, hx⟩
    · cases hrest : findItemIdx rest id with
      | none => simp [hrest] at h
      | some q =>
        simp [hrest] at h
        subst h
        obtain ⟨it, hit, hid⟩ := ih hrest
        exact ⟨it, by simpa using hit, hid⟩

theorem getElem?_lt {items : List Item} {p : Nat} {it : Item} (h : items[p]? = some it) :
    p < items.length := by
  by_contra hlt
  rw [List.getElem?_eq_none (Nat.le_of_not_lt hlt)] at h
  cases h

theorem deref_of_lt {bank : Bank} {p : Nat} (h : p < bank.customers.length) :
    ∃ c, bank.deref p = some c :=
  ⟨bank.customers[p], by simp [Bank.deref, h]⟩

theorem deref_store_same {bank : Bank} {p : Nat} (c : BankCustomer)
    (h : p < bank.customers.length) : (bank.store p c).deref p = some c := by
  simp [Bank.deref, Bank.store, h]

theorem store_length (bank : Bank) (p : Nat) (c : BankCustomer) :
    (bank.store p c).customers.length = bank.customers.length := by
  simp [Bank.store]

/-! ## The execute step -/

theorem withdraw_ok {env : Env} {b : BankCustomer} {amount : ℚ} (h : amount ≤ b.balance) :
    b.withdraw env amount = (true, { b with balance := env.fl (b.balance - amount) }) := by
  have h3 : ¬ amount > b.balance := not_lt.mpr h
  simp [BankCustomer.withdraw, h3]

theorem sellItem_ok {env : Env} {s : Seller} {bank : Bank} {id quantity : Int} {p : Nat}
    {it : Item} {a : BankCustomer} (o : ℚ)
    (hfind : s.findItem id = some p) (hitem : s.items[p]? = some it)
    (hstock : quantity ≤ it.quantity) (ha : bank.deref s.account = some a) :
    s.sellItem env bank id quantity o =
      some ⟨true, totalPriceOf env it quantity,
        bank.store s.account (a.deposit env (totalPriceOf env it quantity)),
        { s with items := s.items.set p { it with quantity := it.quantity - quantity } }⟩ := by
  have hnot : ¬ quantity > it.quantity := not_lt.mpr hstock
  simp [Seller.sellItem, hfind, hitem, Item.reduceQuantity, hnot, ha]

theorem processPurchase_execute {env : Env} {bank : Bank} {buyer : Buyer} {seller : Seller}
    {itemId quantity : Int} {p : Nat} {it : Item} {b a : BankCustomer}
    (hfind : seller.findItem itemId = some p) (hitem : seller.items[p]? = some it)
    (hstock : quantity ≤ it.quantity)
    (hb : bank.deref buyer.account = some b)
    (hbal : totalPriceOf env it quantity ≤ b.balance)
    (ha : (bank.store buyer.account
        { b with balance := env.fl (b.balance - totalPriceOf env it quantity) }).deref
          seller.account = some a) :
    processPurchase env bank buyer seller itemId quantity =
      some ⟨.success quantity (totalPriceOf env it quantity),
        [.withdraw buyer.account (totalPriceOf env it quantity) true,
         .sellItem itemId quantity true (totalPriceOf env it quantity)],
        (bank.store buyer.account
          { b with balance := env.fl (b.balance - totalPriceOf env it quantity) }).store
            seller.account (a.deposit env (totalPriceOf env it quantity)),
        { seller with
          items := seller.items.set p { it with quantity := it.quantity - quantity } }⟩ := by
  have h1 : ¬ it.quantity < quantity := not_lt.mpr hstock
  have h2 : ¬ b.balance < totalPriceOf env it quantity := not_lt.mpr hbal
  simp [processPurchase, hfind, hitem, h1, hb, h2, withdraw_ok hbal,
    sellItem_ok 0 hfind hitem hstock ha]

/-! ## The purchase workflow -/

/-- C2: when the requested quantity is greater than the found item's quantity on
hand, the call reports insufficient stock, issues neither `withdraw` nor
`sellItem`, and returns the bank (all balances) and the seller (all stock)
unchanged. -/
theorem processPurchase_insufficient_stock (env : Env) (bank : Bank) (buyer : Buyer)
    (seller : Seller) (itemId quantity : Int) (p : Nat) (it : Item)
    (hfind : seller.findItem itemId = some p) (hitem : seller.items[p]? = some it)
    (hq : quantity > it.quantity) :
    processPurchase env bank buyer seller itemId quantity =
      some ⟨.insufficientStock it.quantity quantity, [], bank, seller⟩ := by
  have h1 : it.quantity < quantity := hq
  simp [processPurchase, hfind, hitem, h1]

/-- Witness for C2: 80 units asked of an item with 75 on hand. -/
theorem processPurchase_insufficient_stock_witness :
    processPurchase ieee ⟨"B", [⟨202, "M", 200⟩]⟩ ⟨2, "M", 0⟩
        ⟨1, "S", 5, [⟨1003, "Eraser", 1, 75⟩]⟩ 1003 80 =
      some ⟨.insufficientStock 75 80, [], ⟨"B", [⟨202, "M", 200⟩]⟩,
        ⟨1, "S", 5, [⟨1003, "Eraser", 1, 75⟩]⟩⟩ :=
  processPurchase_insufficient_stock ieee ⟨"B", [⟨202, "M", 200⟩]⟩ ⟨2, "M", 0⟩
    ⟨1, "S", 5, [⟨1003, "Eraser", 1, 75⟩]⟩ 1003 80 0 ⟨1003, "Eraser", 1, 75⟩
    (by decide) (by rfl) (by decide)

/-- C4: when `findItem` returns the absent indicator, the call reports
item-not-found, issues no mutating call, and returns the whole state (the bank
with all its accounts, the seller with its whole inventory) unchanged. -/
theorem processPurchase_item_not_found (env : Env) (bank : Bank) (buyer : Buyer)
    (seller : Seller) (itemId quantity : Int) (hfind : seller.findItem itemId = none) :
    processPurchase env bank buyer seller itemId quantity =
      some ⟨.itemNotFound itemId, [], bank, seller⟩ := by
  simp [processPurchase, hfind]

/-- Witness for C4: an id that is not in the inventory. -/
theorem processPurchase_item_not_found_witness :
    processPurchase ieee ⟨"B", [⟨202, "M", 200⟩]⟩ ⟨2, "M", 0⟩
        ⟨1, "S", 0, [⟨1003, "Eraser", 1, 75⟩]⟩ 9999 1 =
      some ⟨.itemNotFound 9999, [], ⟨"B", [⟨202, "M", 200⟩]⟩,
        ⟨1, "S", 0, [⟨1003, "Eraser", 1, 75⟩]⟩⟩ :=
  processPurchase_item_not_found ieee ⟨"B", [⟨202, "M", 200⟩]⟩ ⟨2, "M", 0⟩
    ⟨1, "S", 0, [⟨1003, "Eraser", 1, 75⟩]⟩ 9999 1 (by decide)

/-- Counterexample to C3 as stated: an item with 5 on hand at price 100, a buyer
holding 50 and an order of 10 units: `price*quantity` is 1000, greater than the
balance, yet the call reports insufficient stock, not insufficient balance. -/
theorem processPurchase_insufficient_balance_counterexample :
    (100 : ℚ) * ((10 : Int) : ℚ) > 50 ∧
    totalPriceOf ieee ⟨7, "x", 100, 5⟩ 10 = 1000 ∧
    ∃ r, processPurchase ieee ⟨"B", [⟨201, "J", 50⟩]⟩ ⟨1, "J", 0⟩
        ⟨1, "S", 0, [⟨7, "x", 100, 5⟩]⟩ 7 10 = some r ∧
      r.report = .insufficientStock 5 10 ∧
      ∀ required balance, r.report ≠ .insufficientBalance required balance := by
  refine ⟨by norm_num, by decide!, ⟨.insufficientStock 5 10, [], ⟨"B", [⟨201, "J", 50⟩]⟩,
    ⟨1, "S", 0, [⟨7, "x", 100, 5⟩]⟩⟩, by decide!, rfl, ?_⟩
  intro required balance h
  cases h

/-- C3 (amended): when the total of the found item, the `double` product
`price*quantity` that the balance is compared with, is greater than the buyer's
balance, the call issues no mutating call and returns the bank and the seller
unchanged; it reports insufficient balance when the requested quantity does not
exceed the item's stock, and insufficient stock (the check that comes first)
when it does. -/
theorem processPurchase_insufficient_balance (env : Env) (bank : Bank) (buyer : Buyer)
    (seller : Seller) (itemId quantity : Int) (p : Nat) (it : Item) (b : BankCustomer)
    (hfind : seller.findItem itemId = some p) (hitem : seller.items[p]? = some it)
    (hb : bank.deref buyer.account = some b)
    (hbal : totalPriceOf env it quantity > b.balance) :
    ∃ r, processPurchase env bank buyer seller itemId quantity = some r ∧
      r.calls = [] ∧ r.bank = bank ∧ r.seller = seller ∧
      (quantity ≤ it.quantity →
        r.report = .insufficientBalance (totalPriceOf env it quantity) b.balance) ∧
      (it.quantity < quantity → r.report = .insufficientStock it.quantity quantity) := by
  have h2 : b.balance < totalPriceOf env it quantity := hbal
  by_cases h1 : it.quantity < quantity
  · refine ⟨⟨.insufficientStock it.quantity quantity, [], bank, seller⟩, ?_, rfl, rfl, rfl, ?_, ?_⟩
    · simp [processPurchase, hfind, hitem, h1]
    · intro h; exact absurd h (not_le.mpr h1)
    · intro _; rfl
  · refine ⟨⟨.insufficientBalance (totalPriceOf env it quantity) b.balance, [], bank, seller⟩,
      ?_, rfl, rfl, rfl, ?_, ?_⟩
    · simp [processPurchase, hfind, hitem, h1, hb, h2]
    · intro _; rfl
    · intro h; exact absurd h h1

/-- Witness for C3 (amended): 10 units at 100 asked by a buyer holding 50, with
20 on hand. -/
theorem processPurchase_insufficient_balance_witness :
    ∃ r, processPurchase ieee ⟨"B", [⟨201, "J", 50⟩]⟩ ⟨1, "J", 0⟩
        ⟨1, "S", 0, [⟨7, "x", 100, 20⟩]⟩ 7 10 = some r ∧
      r.calls = [] ∧ r.bank = ⟨"B", [⟨201, "J", 50⟩]⟩ ∧
      r.seller = ⟨1, "S", 0, [⟨7, "x", 100, 20⟩]⟩ ∧
      ((10 : Int) ≤ 20 →
        r.report = .insufficientBalance (totalPriceOf ieee ⟨7, "x", 100, 20⟩ 10) 50) ∧
      ((20 : Int) < 10 → r.report = .insufficientStock 20 10) :=
  processPurchase_insufficient_balance ieee ⟨"B", [⟨201, "J", 50⟩]⟩ ⟨1, "J", 0⟩
    ⟨1, "S", 0, [⟨7, "x", 100, 20⟩]⟩ 7 10 0 ⟨7, "x", 100, 20⟩ ⟨201, "J", 50⟩
    (by decide) (by rfl) (by rfl) (by decide!)

/-- C5: when the three validations pass (item found, stock at least the
quantity, buyer balance at least the total `price*quantity` that line 42
computes), the buyer's `withdraw` of the total succeeds, the seller's `sellItem`
that follows succeeds and writes the total to `salePrice`, the call reports
success, the total is deposited into the seller's account and the item's stock
is decremented. -/
theorem processPurchase_execute_succeeds (env : Env) (bank : Bank) (buyer : Buyer)
    (seller : Seller) (itemId quantity : Int) (p : Nat) (it : Item) (b : BankCustomer)
    (hfind : seller.findItem itemId = some p) (hitem : seller.items[p]? = some it)
    (hstock : it.quantity ≥ quantity)
    (hb : bank.deref buyer.account = some b)
    (hbal : b.balance ≥ totalPriceOf env it quantity)
    (hs : seller.account < bank.customers.length) :
    (b.withdraw env (totalPriceOf env it quantity)).1 = true ∧
    ∃ sold a r,
      seller.sellItem env
        (bank.store buyer.account (b.withdraw env (totalPriceOf env it quantity)).2)
        itemId quantity 0 = some sold ∧
      sold.ok = true ∧ sold.outSalePrice = totalPriceOf env it quantity ∧
      processPurchase env bank buyer seller itemId quantity = some r ∧
      r.report = .success quantity (totalPriceOf env it quantity) ∧
      r.calls = [.withdraw buyer.account (totalPriceOf env it quantity) true,
        .sellItem itemId quantity true (totalPriceOf env it quantity)] ∧
      r.bank = sold.bank ∧ r.seller = sold.seller ∧
      (bank.store buyer.account (b.withdraw env (totalPriceOf env it quantity)).2).deref
        seller.account = some a ∧
      r.bank.deref seller.account = some (a.deposit env (totalPriceOf env it quantity)) ∧
      r.seller.items[p]? = some { it with quantity := it.quantity - quantity } := by
  have hlen : seller.account < (bank.store buyer.account
      { b with balance := env.fl (b.balance - totalPriceOf env it quantity) }).customers.length := by
    rw [store_length]; exact hs
  obtain ⟨a, ha⟩ := deref_of_lt hlen
  rw [withdraw_ok hbal]
  refine ⟨rfl, _, a, _, sellItem_ok 0 hfind hitem hstock ha, rfl, rfl,
    processPurchase_execute hfind hitem hstock hb hbal ha, rfl, rfl, rfl, rfl, ha, ?_, ?_⟩
  · exact deref_store_same _ hlen
  · simp [getElem?_lt hitem]

/-- Witness for C5: the first purchase of the scripted run. -/
theorem processPurchase_execute_succeeds_witness :
    ((⟨201, "J", 800⟩ : BankCustomer).withdraw ieee
      (totalPriceOf ieee ⟨1001, "Notebook", 5 / 2, 50⟩ 10)).1 = true ∧
    ∃ sold a r,
      (⟨1, "S", 0, [⟨1001, "Notebook", 5 / 2, 50⟩]⟩ : Seller).sellItem ieee
        ((⟨"B", [⟨101, "S", 1500⟩, ⟨201, "J", 800⟩]⟩ : Bank).store 1
          ((⟨201, "J", 800⟩ : BankCustomer).withdraw ieee
            (totalPriceOf ieee ⟨1001, "Notebook", 5 / 2, 50⟩ 10)).2)
        1001 10 0 = some sold ∧
      sold.ok = true ∧
      sold.outSalePrice = totalPriceOf ieee ⟨1001, "Notebook", 5 / 2, 50⟩ 10 ∧
      processPurchase ieee ⟨"B", [⟨101, "S", 1500⟩, ⟨201, "J", 800⟩]⟩ ⟨1, "J", 1⟩
        ⟨1, "S", 0, [⟨1001, "Notebook", 5 / 2, 50⟩]⟩ 1001 10 = some r ∧
      r.report = .success 10 (totalPriceOf ieee ⟨1001, "Notebook", 5 / 2, 50⟩ 10) ∧
      r.calls = [.withdraw 1 (totalPriceOf ieee ⟨1001, "Notebook", 5 / 2, 50⟩ 10) true,
        .sellItem 1001 10 true (totalPriceOf ieee ⟨1001, "Notebook", 5 / 2, 50⟩ 10)] ∧
      r.bank = sold.bank ∧ r.seller = sold.seller ∧
      ((⟨"B", [⟨101, "S", 1500⟩, ⟨201, "J", 800⟩]⟩ : Bank).store 1
          ((⟨201, "J", 800⟩ : BankCustomer).withdraw ieee
            (totalPriceOf ieee ⟨1001, "Notebook", 5 / 2, 50⟩ 10)).2).deref 0 = some a ∧
      r.bank.deref 0
        = some (a.deposit ieee (totalPriceOf ieee ⟨1001, "Notebook", 5 / 2, 50⟩ 10)) ∧
      r.seller.items[0]? = some ⟨1001, "Notebook", 5 / 2, (50 : Int) - 10⟩ :=
  processPurchase_execute_succeeds ieee ⟨"B", [⟨101, "S", 1500⟩, ⟨201, "J", 800⟩]⟩
    ⟨1, "J", 1⟩ ⟨1, "S", 0, [⟨1001, "Notebook", 5 / 2, 50⟩]⟩ 1001 10 0
    ⟨1001, "Notebook", 5 / 2, 50⟩ ⟨201, "J", 800⟩
    (by decide) (by rfl) (by decide) (by rfl) (by decide!) (by decide)

theorem main_eq :
    main = some
      { aBank := ⟨"Digital Prosperity Bank",
          [⟨101, "John Doe", 1500⟩, ⟨201, "Jane Smith", 800⟩, ⟨202, "Michael Johnson", 200⟩]⟩
        seller := ⟨1, "John\x27s General Store", 0,
          [⟨1001, "Notebook", 5 / 2, 50⟩, ⟨1002, "Pencil 2B", 1 / 2, 100⟩,
           ⟨1003, "Eraser", 1, 75⟩]⟩
        buyer1 := ⟨1, "Jane", 1⟩
        buyer2 := ⟨2, "Michael", 2⟩
        first := ⟨.success 10 25, [.withdraw 1 25 true, .sellItem 1001 10 true 25],
          ⟨"Digital Prosperity Bank",
            [⟨101, "John Doe", 1525⟩, ⟨201, "Jane Smith", 775⟩,
             ⟨202, "Michael Johnson", 200⟩]⟩,
          ⟨1, "John\x27s General Store", 0,
            [⟨1001, "Notebook", 5 / 2, 40⟩, ⟨1002, "Pencil 2B", 1 / 2, 100⟩,
             ⟨1003, "Eraser", 1, 75⟩]⟩⟩
        second := ⟨.success 5 (5 / 2),
          [.withdraw 1 (5 / 2) true, .sellItem 1002 5 true (5 / 2)],
          ⟨"Digital Prosperity Bank",
            [⟨101, "John Doe", 3055 / 2⟩, ⟨201, "Jane Smith", 1545 / 2⟩,
             ⟨202, "Michael Johnson", 200⟩]⟩,
          ⟨1, "John\x27s General Store", 0,
            [⟨1001, "Notebook", 5 / 2, 40⟩, ⟨1002, "Pencil 2B", 1 / 2, 95⟩,
             ⟨1003, "Eraser", 1, 75⟩]⟩⟩
        third := ⟨.insufficientStock 75 80, [],
          ⟨"Digital Prosperity Bank",
            [⟨101, "John Doe", 3055 / 2⟩, ⟨201, "Jane Smith", 1545 / 2⟩,
             ⟨202, "Michael Johnson", 200⟩]⟩,
          ⟨1, "John\x27s General Store", 0,
            [⟨1001, "Notebook", 5 / 2, 40⟩, ⟨1002, "Pencil 2B", 1 / 2, 95⟩,
             ⟨1003, "Eraser", 1, 75⟩]⟩⟩
        fourth := ⟨.success 20 20, [.withdraw 2 20 true, .sellItem 1003 20 true 20],
          ⟨"Digital Prosperity Bank",
            [⟨101, "John Doe", 3095 / 2⟩, ⟨201, "Jane Smith", 1545 / 2⟩,
             ⟨202, "Michael Johnson", 180⟩]⟩,
          ⟨1, "John\x27s General Store", 0,
            [⟨1001, "Notebook", 5 / 2, 40⟩, ⟨1002, "Pencil 2B", 1 / 2, 95⟩,
             ⟨1003, "Eraser", 1, 55⟩]⟩⟩ } := by
  decide!

/-- C7: in the scripted run the first purchase is made by the buyer whose
account 201 holds 800.00, for 10 units of item 1001 (price 2.50, stock 50), from
the seller whose account 101 holds 1500.00; it succeeds with a total of 25.00,
the buyer's balance becomes 775.00, the seller's balance becomes 1525.00 (25.00
more) and the stock of item 1001 becomes 40 (10 less). -/
theorem main_first_purchase :
    ∃ run, main = some run ∧
      run.aBank.findCustomer 201 = some run.buyer1.account ∧
      run.aBank.findCustomer 101 = some run.seller.account ∧
      run.aBank.balanceOf 201 = some 800 ∧
      run.aBank.balanceOf 101 = some 1500 ∧
      run.seller.itemOf 1001 = some ⟨1001, "Notebook", 5 / 2, 50⟩ ∧
      processPurchase ieee run.aBank run.buyer1 run.seller 1001 10 = some run.first ∧
      run.first.report = .success 10 25 ∧
      run.first.bank.balanceOf 201 = some 775 ∧
      run.first.bank.balanceOf 101 = some (1500 + 25) ∧
      run.first.bank.balanceOf 101 = some 1525 ∧
      (run.first.seller.itemOf 1001).map (·.quantity) = some (50 - 10) ∧
      (run.first.seller.itemOf 1001).map (·.quantity) = some 40 :=
  ⟨_, main_eq, by decide!, by decide!, by decide!, by decide!, by decide!, by decide!,
    by decide!, by decide!, by decide!, by decide!, by decide!, by decide!⟩

/-- C8: in the scripted run the third purchase, 80 units of item 1003 (price
1.00, stock 75) by the buyer whose account 202 holds 200.00, fails with
insufficient stock (80 > 75), not with insufficient balance (the total 80.00 is
within the balance), issues no mutating call and changes no balance and no
stock. -/
theorem main_third_purchase :
    ∃ run, main = some run ∧
      run.aBank.findCustomer 202 = some run.buyer2.account ∧
      run.second.bank.balanceOf 202 = some 200 ∧
      run.second.seller.itemOf 1003 = some ⟨1003, "Eraser", 1, 75⟩ ∧
      processPurchase ieee run.second.bank run.buyer2 run.second.seller 1003 80
        = some run.third ∧
      run.third.report = .insufficientStock 75 80 ∧
      (∀ required balance, run.third.report ≠ .insufficientBalance required balance) ∧
      (1 : ℚ) * ((80 : Int) : ℚ) ≤ 200 ∧
      run.third.calls = [] ∧
      run.third.bank = run.second.bank ∧
      run.third.seller = run.second.seller :=
  ⟨_, main_eq, by decide!, by decide!, by decide!, by decide!, by decide!,
    (fun _ _ h => by cases h), by norm_num, by decide!, by decide!, by decide!⟩

/-- C9: in the scripted run, after the failed 80-unit order, the same buyer
(account 202, balance 200.00) buys 20 units of item 1003 at 1.00: the purchase
succeeds with a total of 20.00, the buyer's balance becomes 180.00, the stock of
item 1003 goes from 75 to 55 and the seller's balance grows by 20.00. -/
theorem main_fourth_purchase :
    ∃ run, main = some run ∧
      run.aBank.findCustomer 202 = some run.buyer2.account ∧
      run.aBank.findCustomer 101 = some run.seller.account ∧
      run.third.report = .insufficientStock 75 80 ∧
      run.third.bank.balanceOf 202 = some 200 ∧
      run.third.seller.itemOf 1003 = some ⟨1003, "Eraser", 1, 75⟩ ∧
      processPurchase ieee run.third.bank run.buyer2 run.third.seller 1003 20
        = some run.fourth ∧
      run.fourth.report = .success 20 20 ∧
      run.fourth.bank.balanceOf 202 = some 180 ∧
      (run.fourth.seller.itemOf 1003).map (·.quantity) = some 55 ∧
      (run.fourth.bank.balanceOf 101).bind
        (fun after => (run.third.bank.balanceOf 101).map (fun before => after - before))
        = some 20 :=
  ⟨_, main_eq, by decide!, by decide!, by decide!, by decide!, by decide!, by decide!,
    by decide!, by decide!, by decide!, by decide!⟩

end Marketplace
